import Mathlib

set_option linter.unusedVariables false

/-!
Verification of the `AppPlugin` interface of the cloudlaunch repository
(`django-cloudlaunch/cloudlaunch/backend_plugins/app_plugin.py`) against its
natural-language specification.

The source file declares a single class, `AppPlugin`, whose seven methods are
decorated abstract and whose bodies are a docstring followed by `pass`.  The
interface contracts (result shapes, state machine, error taxonomy) live in the
docstrings and in the specification; where a claim depends on behaviour that
only the spec describes, the corresponding definition is modelled from the
spec and marked as such in its doc comment.
-/

namespace CloudLaunch

/-- Python runtime values, as far as the plugin interface needs them: `None`,
booleans, strings and string-keyed dictionaries. -/
inductive PyVal where
  | none
  | bool (b : Bool)
  | str (s : String)
  | dict (entries : List (String × PyVal))

/-- Dictionary lookup on an association list of string keys: the value bound to
the first occurrence of the key, or `none` when the key is absent. -/
def lookupKey (k : String) : List (String × PyVal) → Option PyVal
  | [] => Option.none
  | (a, v) :: t => if a = k then some v else lookupKey k t

/-- Lookup of a key in a `PyVal`: defined on dictionaries, `none` elsewhere. -/
def PyVal.lookup (v : PyVal) (k : String) : Option PyVal :=
  match v with
  | .dict es => lookupKey k es
  | _ => Option.none

/-! ## Embedding of the source class `AppPlugin`

Each method of the source class has a body consisting of a docstring and
`pass`, so calling it returns Python `None`, whatever the arguments. -/

namespace AppPlugin

/-- Embeds `AppPlugin.process_app_config` from `app_plugin.py`: the body is a
docstring followed by `pass`, so the call returns `None`. -/
def process_app_config (provider name cloud_config app_config : PyVal) : PyVal :=
  PyVal.none

/-- Embeds `AppPlugin.sanitise_app_config` from `app_plugin.py`: the body is a
docstring followed by `pass`, so the call returns `None`. -/
def sanitise_app_config (app_config : PyVal) : PyVal :=
  PyVal.none

/-- Embeds `AppPlugin.provision_host` from `app_plugin.py`: the body is a
docstring followed by `pass`, so the call returns `None`. -/
def provision_host (self provider task name cloud_config app_config user_data : PyVal) :
    PyVal :=
  PyVal.none

/-- Embeds `AppPlugin.configure_host` from `app_plugin.py`: the body is a
docstring followed by `pass`, so the call returns `None`. -/
def configure_host (self host_config app_config : PyVal) : PyVal :=
  PyVal.none

/-- Embeds `AppPlugin.health_check` from `app_plugin.py`: the body is a
docstring followed by `pass`, so the call returns `None`. -/
def health_check (self provider deployment : PyVal) : PyVal :=
  PyVal.none

/-- Embeds `AppPlugin.restart` from `app_plugin.py`: the body is a docstring
followed by `pass`, so the call returns `None`. -/
def restart (self provider deployment : PyVal) : PyVal :=
  PyVal.none

/-- Embeds `AppPlugin.delete` from `app_plugin.py`: the body is a docstring
followed by `pass`, so the call returns `None`. -/
def delete (self provider deployment : PyVal) : PyVal :=
  PyVal.none

end AppPlugin

/-! ## Python 3 class-construction semantics (abstractness enforcement)

Under Python 3 the metaclass of a class comes only from the `metaclass=`
keyword in the class header; a `__metaclass__` attribute assigned in the class
body (the Python 2 convention used in the source) is an ordinary class
attribute with no effect.  Abstract-method enforcement at instantiation time
happens only when the effective metaclass is `abc.ABCMeta`. -/

/-- The two metaclasses relevant to the source: the default `type`, and
`abc.ABCMeta` which refuses to instantiate classes with abstract methods. -/
inductive PyMetaclass where
  | typeMeta
  | abcMeta
deriving Repr, DecidableEq

/-- A Python 3 class declaration, as far as abstractness enforcement goes: the
optional `metaclass=` keyword of the class header, the names assigned in the
class body, and the names of methods decorated abstract. -/
structure PyClass where
  metaclass_keyword : Option PyMetaclass
  body_attrs : List String
  abstract_methods : List String

/-- Embeds Python 3 semantics: the effective metaclass is the one named by the
`metaclass=` keyword of the class header, defaulting to `type`; a
`__metaclass__` body attribute plays no part. -/
def effective_metaclass (c : PyClass) : PyMetaclass :=
  c.metaclass_keyword.getD PyMetaclass.typeMeta

/-- Embeds Python 3 semantics: instantiation fails only when the effective
metaclass is `abc.ABCMeta` and the class still has abstract methods. -/
def instantiable (c : PyClass) : Bool :=
  match effective_metaclass c with
  | PyMetaclass.abcMeta => c.abstract_methods.isEmpty
  | PyMetaclass.typeMeta => true

/-- Embeds the class statement of `app_plugin.py`: `class AppPlugin():` has no
`metaclass=` keyword; `__metaclass__ = abc.ABCMeta` is an ordinary class-body
attribute under Python 3; seven methods are decorated abstract. -/
def AppPluginClass : PyClass :=
  { metaclass_keyword := Option.none,
    body_attrs := ["__metaclass__"],
    abstract_methods := ["process_app_config", "sanitise_app_config",
                         "provision_host", "configure_host", "health_check",
                         "restart", "delete"] }

/-! ## Error taxonomy and lifecycle state machine

The plugin implementations, the error classes and the Lifecycle Controller are
not part of `app_plugin.py`; they are modelled from the specification
(sections 4.2 and 7) and from the method docstrings of the source. -/

/-- Modelled from the spec: `ValidationError` carries field-level messages
(pairs of field name and message) about the invalid user input. -/
structure ValidationError where
  fieldErrors : List (String × String)

/-- Modelled from the spec: `ProvisioningError`, an unrecoverable
infrastructure failure raised by `provision_host`. -/
structure ProvisioningError where
  message : String

/-- Modelled from the spec: `ConfigurationError`, a post-provision failure
raised by `configure_host`. -/
structure ConfigurationError where
  message : String

/-- Modelled from the spec: an infrastructure-mutating call against the cloud
provider; used to record which provider state a plugin call touches. -/
inductive ProviderCall where
  | createResource (id : String)
  | removeResource (id : String)

/-- Modelled from the spec (section 4.2): the states of the deployment
lifecycle state machine. -/
inductive LifecycleState where
  | CREATED
  | VALIDATING
  | PROVISIONING
  | CONFIGURING
  | HEALTHY
  | UNHEALTHY
  | DELETING
  | DELETED
  | ERROR
deriving Repr, DecidableEq

/-- The observable outcome of one launch run of the Lifecycle Controller:
the sequence of states entered, the final state, the number of
infrastructure-touching plugin calls made, the processed config handed to
`provision_host` (if the run got that far), the provisioning outcome, and the
validation error returned synchronously to the caller (if any). -/
structure LaunchOutcome (α : Type) where
  trace : List LifecycleState
  finalState : LifecycleState
  infraCalls : Nat
  passedUserData : Option α
  provisionOutcome : Option (Except ProvisioningError PyVal)
  validationError : Option ValidationError

/-- Modelled from the spec (section 4.2): the launch path of the Lifecycle
Controller.  Validation runs synchronously first; on `ValidationError` the
machine moves to `ERROR` at once, the error is returned to the caller and no
infrastructure call is made.  On success the processed config is handed,
unchanged and uninspected (the controller is parametric in its type `α`), to
`provision_host`; on `ProvisioningError` the machine moves to `ERROR` without
attempting `configure_host`; otherwise `configure_host` runs and the machine
ends `HEALTHY` or `ERROR`.  `infraCalls` counts the calls that may touch
infrastructure: `provision_host` and `configure_host`. -/
def launch {α : Type} (validation : Except ValidationError α)
    (provision : α → Except ProvisioningError PyVal)
    (configure : PyVal → Except ConfigurationError PyVal) : LaunchOutcome α :=
  match validation with
  | Except.error e =>
      { trace := [LifecycleState.CREATED, LifecycleState.VALIDATING, LifecycleState.ERROR],
        finalState := LifecycleState.ERROR,
        infraCalls := 0,
        passedUserData := Option.none,
        provisionOutcome := Option.none,
        validationError := some e }
  | Except.ok pc =>
      match provision pc with
      | Except.error _ =>
          { trace := [LifecycleState.CREATED, LifecycleState.VALIDATING,
                      LifecycleState.PROVISIONING, LifecycleState.ERROR],
            finalState := LifecycleState.ERROR,
            infraCalls := 1,
            passedUserData := some pc,
            provisionOutcome := some (provision pc),
            validationError := Option.none }
      | Except.ok pr =>
          match configure pr with
          | Except.error _ =>
              { trace := [LifecycleState.CREATED, LifecycleState.VALIDATING,
                          LifecycleState.PROVISIONING, LifecycleState.CONFIGURING,
                          LifecycleState.ERROR],
                finalState := LifecycleState.ERROR,
                infraCalls := 2,
                passedUserData := some pc,
                provisionOutcome := some (provision pc),
                validationError := Option.none }
          | Except.ok _ =>
              { trace := [LifecycleState.CREATED, LifecycleState.VALIDATING,
                          LifecycleState.PROVISIONING, LifecycleState.CONFIGURING,
                          LifecycleState.HEALTHY],
                finalState := LifecycleState.HEALTHY,
                infraCalls := 2,
                passedUserData := some pc,
                provisionOutcome := some (provision pc),
                validationError := Option.none }

/-! ## Model plugin

The concrete plugin operations are absent from `app_plugin.py` (every method
is abstract); the definitions below model them from the specification and from
the method docstrings of the source. -/

namespace Model

/-- Modelled from the spec: the keys this plugin declares sensitive
(passwords, private keys, tokens). -/
def sensitive_keys : List String :=
  ["password", "private_key", "token"]

/-- Modelled from the spec: `sanitise_app_config` is abstract in the source;
this model removes every key the plugin declares sensitive, producing a
representation safe to log.  It is a pure function of `app_config`. -/
def sanitise_app_config : List (String × PyVal) → List (String × PyVal)
  | [] => []
  | kv :: t =>
      if kv.1 ∈ sensitive_keys then sanitise_app_config t
      else kv :: sanitise_app_config t

/-- Modelled from the spec: the plugin-specific schema — the fields that an
`app_config` must carry to be valid. -/
def required_fields : List String :=
  ["image", "instance_type"]

/-- `app_config` violates the plugin-specific schema when some required field
is missing from it. -/
def schema_violated (app_config : List (String × PyVal)) : Bool :=
  !(required_fields.filter (fun f => (lookupKey f app_config).isNone)).isEmpty

/-- Modelled from the spec: `process_app_config` is abstract in the source;
this model validates `app_config` against the plugin-specific schema and
builds the processed launch configuration.  It returns the field-level errors
of every violated field on failure, and in either case the (empty) list of
provider calls it made: validation never contacts the provider. -/
def process_app_config (provider : PyVal) (name : String)
    (cloud_config app_config : List (String × PyVal)) :
    Except ValidationError (List (String × PyVal)) × List ProviderCall :=
  let missing := required_fields.filter (fun f => (lookupKey f app_config).isNone)
  if missing.isEmpty then
    (Except.ok (("deployment_name", PyVal.str name)
                 :: ("cloud", PyVal.dict cloud_config) :: app_config), [])
  else
    (Except.error { fieldErrors := missing.map (fun f => (f, "missing required field")) }, [])

/-- The `ProvisionResult` contract as documented on `provision_host` in
`app_plugin.py`: the result dict must contain at least the keys `cloudLaunch`
and `host`, and the `host` dict at least `address`, `pk` and `user`. -/
def provision_result_ok (v : PyVal) : Bool :=
  (v.lookup "cloudLaunch").isSome &&
    (match v.lookup "host" with
     | some h =>
         ((h.lookup "address").isSome && (h.lookup "pk").isSome &&
          (h.lookup "user").isSome)
     | Option.none => false)

/-- The `ProvisionResult` value the model provisioner returns: the minimal
shape documented on the source method — the `cloudLaunch` key with provisioning
metadata, and the `host` key carrying `address`, `pk` and `user`. -/
def model_provision_result : PyVal :=
  PyVal.dict
    [("cloudLaunch", PyVal.dict [("instance_id", PyVal.str "i-0")]),
     ("host", PyVal.dict
        [("address", PyVal.str "10.0.0.1"),
         ("pk", PyVal.str "ssh-private-key"),
         ("user", PyVal.str "ubuntu")])]

/-- Modelled from the spec: `provision_host` is abstract in the source; this
model provisions one instance and returns the minimal result documented on the
source method. -/
def provision_host (provider task : PyVal) (name : String)
    (cloud_config app_config user_data : List (String × PyVal)) :
    Except ProvisioningError PyVal :=
  Except.ok model_provision_result

/-- The instance id a deployment record points at: read from
`launch_result.cloudLaunch.instance_id` of the deployment dict. -/
def deployment_instance_id (deployment : PyVal) : Option String :=
  match deployment.lookup "launch_result" with
  | some lr =>
      match lr.lookup "cloudLaunch" with
      | some cl =>
          match cl.lookup "instance_id" with
          | some (PyVal.str s) => some s
          | _ => Option.none
      | _ => Option.none
  | _ => Option.none

/-- Modelled from the spec: `health_check` is abstract in the source; this
model queries the provider for the deployment's instance.  `instanceStatusOf`
is the provider's view: `none` when the underlying resource no longer exists.
The call always returns a report dict — it never raises — and reports
`instance_status = "deleted"` when the instance is gone. -/
def health_check (instanceStatusOf : String → Option String) (deployment : PyVal) :
    PyVal :=
  match deployment_instance_id deployment with
  | some iid =>
      match instanceStatusOf iid with
      | some st => PyVal.dict [("instance_status", PyVal.str st)]
      | Option.none => PyVal.dict [("instance_status", PyVal.str "deleted")]
  | Option.none => PyVal.dict [("instance_status", PyVal.str "deleted")]

/-- Modelled from the spec: the Health Monitor step of the Lifecycle
Controller — it calls `health_check` and hands the deployment record back
untouched: health checks never mutate deployment state. -/
def monitorStep (instanceStatusOf : String → Option String) (deployment : PyVal) :
    PyVal × PyVal :=
  (health_check instanceStatusOf deployment, deployment)

/-- Modelled from the spec: `delete` is abstract in the source; this model
removes the cloud resources tied to the deployment from the provider state (a
list of existing resource ids).  A resource the provider no longer has is
skipped rather than failing the call; a resource whose removal the provider
refuses (`refusing`) makes the call report `false`.  The call returns a
boolean and the new provider state — it has no failure exit. -/
def delete (refusing : List String) (resources deployment_resources : List String) :
    Bool × List String :=
  let present := deployment_resources.filter (fun r => resources.contains r)
  let removed := present.filter (fun r => !(refusing.contains r))
  (present.all (fun r => !(refusing.contains r)),
   resources.filter (fun r => !(removed.contains r)))

end Model

/-! ## Concrete sample values

Concrete configurations, deployments and plugin outcomes used to evaluate the
model operations at specific inputs. -/

/-- A sample cloud configuration. -/
def demo_cloud_config : List (String × PyVal) :=
  [("region", PyVal.str "us-east-1")]

/-- A sample app configuration that satisfies the model schema. -/
def demo_app_config : List (String × PyVal) :=
  [("image", PyVal.str "ami-42"), ("instance_type", PyVal.str "m1.small")]

/-- A sample deployment record, carrying the `launch_result` and
`launch_status` keys the source docstrings require of a deployment dict. -/
def demo_deployment : PyVal :=
  PyVal.dict
    [("launch_result", Model.model_provision_result),
     ("launch_status", PyVal.str "running")]

/-- A provider view in which no instance exists any more. -/
def no_instance : String → Option String :=
  fun s => Option.none

/-- A provisioner stub that fails at once; used where provisioning must never
be reached or must error. -/
def failing_provisioner : List (String × PyVal) → Except ProvisioningError PyVal :=
  fun pc => Except.error { message := "provisioning failed" }

/-- A configurator stub that fails at once. -/
def failing_configurator : PyVal → Except ConfigurationError PyVal :=
  fun pr => Except.error { message := "configuration failed" }

/-! ## Plugin classes and instances (static-method dispatch)

`process_app_config` and `sanitise_app_config` are declared with
`@abc.abstractstaticmethod` in the source: they take no `self`.  A plugin
conforming to the interface is modelled as a class record whose static
methods are functions of their explicit arguments only, while instance
methods additionally receive the per-instance state. -/

/-- A plugin class conforming to the `AppPlugin` interface: the two static
methods take no instance state; `provision_host`, as an instance method,
does. -/
structure PluginClass (State : Type) where
  process_app_config : PyVal → String → List (String × PyVal) → List (String × PyVal) →
    Except ValidationError (List (String × PyVal))
  sanitise_app_config : List (String × PyVal) → List (String × PyVal)
  provision_host : State → PyVal → PyVal → String → List (String × PyVal) →
    List (String × PyVal) → List (String × PyVal) → Except ProvisioningError PyVal

/-- A plugin instance: its class together with its per-instance state. -/
structure PluginInstance (State : Type) where
  cls : PluginClass State
  state : State

/-- Embeds Python static-method call semantics: a static method resolved
through an instance dispatches to the class attribute; the instance is not
passed and cannot be read. -/
def PluginInstance.call_process {State : Type} (i : PluginInstance State)
    (provider : PyVal) (name : String) (cloud_config app_config : List (String × PyVal)) :
    Except ValidationError (List (String × PyVal)) :=
  i.cls.process_app_config provider name cloud_config app_config

/-- Embeds Python static-method call semantics for `sanitise_app_config`:
dispatch goes to the class attribute, without the instance. -/
def PluginInstance.call_sanitise {State : Type} (i : PluginInstance State)
    (app_config : List (String × PyVal)) : List (String × PyVal) :=
  i.cls.sanitise_app_config app_config

/-! ## Theorems -/

/-- Claim C9: the base `AppPlugin` class is instantiable — its
`__metaclass__ = abc.ABCMeta` body assignment does not enforce abstractness
under Python 3 — and every one of its operations returns `None` on every
input, rather than the dict or bool its documented contract requires. -/
theorem appPlugin_instantiable_and_returns_none :
    instantiable AppPluginClass = true ∧
    (∀ provider name cloud_config app_config : PyVal,
      AppPlugin.process_app_config provider name cloud_config app_config = PyVal.none) ∧
    (∀ app_config : PyVal,
      AppPlugin.sanitise_app_config app_config = PyVal.none) ∧
    (∀ self provider task name cloud_config app_config user_data : PyVal,
      AppPlugin.provision_host self provider task name cloud_config app_config user_data
        = PyVal.none) ∧
    (∀ self host_config app_config : PyVal,
      AppPlugin.configure_host self host_config app_config = PyVal.none) ∧
    (∀ self provider deployment : PyVal,
      AppPlugin.health_check self provider deployment = PyVal.none) ∧
    (∀ self provider deployment : PyVal,
      AppPlugin.restart self provider deployment = PyVal.none) ∧
    (∀ self provider deployment : PyVal,
      AppPlugin.delete self provider deployment = PyVal.none) := by
  refine ⟨rfl, ?_, ?_, ?_, ?_, ?_, ?_, ?_⟩ <;> intros <;> rfl

/-- Claim C10: `process_app_config` and `sanitise_app_config` are static
methods taking no plugin instance, so two calls made through distinct
instances of the same plugin class with equal arguments are indistinguishable:
the results depend only on the explicit arguments, never on instance state. -/
theorem static_methods_ignore_instance_state (State : Type)
    (c : PluginClass State) (s1 s2 : State) (provider : PyVal) (name : String)
    (cloud_config app_config : List (String × PyVal)) :
    PluginInstance.call_process ⟨c, s1⟩ provider name cloud_config app_config =
      PluginInstance.call_process ⟨c, s2⟩ provider name cloud_config app_config ∧
    PluginInstance.call_sanitise ⟨c, s1⟩ app_config =
      PluginInstance.call_sanitise ⟨c, s2⟩ app_config :=
  ⟨rfl, rfl⟩

/-- Claim C2: for every `app_config`, the output of `sanitise_app_config`
contains none of the keys the plugin declares sensitive; the call is a pure
function of `app_config` (the model returns a value and touches no state). -/
theorem sanitise_app_config_removes_sensitive
    (app_config : List (String × PyVal)) (k : String)
    (h : k ∈ Model.sensitive_keys) :
    lookupKey k (Model.sanitise_app_config app_config) = Option.none := by
  induction app_config with
  | nil => rfl
  | cons kv t ih =>
      by_cases hk : kv.1 ∈ Model.sensitive_keys
      · simpa [Model.sanitise_app_config, hk] using ih
      · have hne : kv.1 ≠ k := fun he => hk (he ▸ h)
        simpa [Model.sanitise_app_config, hk, lookupKey, hne] using ih

/-- Witness for claim C2: sanitising a config that carries a password leaves
no `password` key in the output. -/
theorem sanitise_app_config_removes_sensitive_witness :
    "password" ∈ Model.sensitive_keys ∧
    lookupKey "password"
      (Model.sanitise_app_config
        (("password", PyVal.str "hunter2") :: demo_app_config)) = Option.none :=
  ⟨List.Mem.head _,
   sanitise_app_config_removes_sensitive
     (("password", PyVal.str "hunter2") :: demo_app_config) "password"
     (List.Mem.head _)⟩

/-- Claim C6: `delete` returns a boolean rather than throwing (its result type
has no failure exit, and a refused removal is reported as `false`), and a
second `delete` of the same deployment, after the first removed its resources,
still reports success rather than erroring on the now-missing resources. -/
theorem delete_reports_bool_and_tolerates_missing
    (resources deployment_resources : List String) :
    (Model.delete [] resources deployment_resources).1 = true ∧
    (Model.delete [] (Model.delete [] resources deployment_resources).2
       deployment_resources).1 = true ∧
    (Model.delete ["r1"] ["r1"] ["r1"]).1 = false := by
  refine ⟨?_, ?_, rfl⟩ <;> simp [Model.delete]

/-- Claim C7: a deployment that fails validation never reaches the
`PROVISIONING` state; a deployment whose `provision_host` raises never reaches
`CONFIGURING`; and the health-monitor step hands the deployment record back
unchanged — health checks never mutate deployment state. -/
theorem lifecycle_ordering_and_health_frame :
    (∀ (α : Type) (e : ValidationError)
       (prov : α → Except ProvisioningError PyVal)
       (conf : PyVal → Except ConfigurationError PyVal),
       LifecycleState.PROVISIONING ∉ (launch (Except.error e) prov conf).trace) ∧
    (∀ (α : Type) (pc : α) (pe : ProvisioningError)
       (conf : PyVal → Except ConfigurationError PyVal),
       LifecycleState.CONFIGURING ∉
         (launch (Except.ok pc) (fun x => Except.error pe) conf).trace) ∧
    (∀ (instanceStatusOf : String → Option String) (deployment : PyVal),
       (Model.monitorStep instanceStatusOf deployment).2 = deployment) := by
  refine ⟨?_, ?_, ?_⟩
  · intro α e prov conf
    simp [launch]
  · intro α pc pe conf
    simp [launch]
  · intro f d
    rfl

/-- Claim C1 counterexample: a successful `provision_host` result that
satisfies the result contract documented on the source method carries the key
`cloudLaunch`, not `cloudlaunch`; the lowercase key named by the claim is
absent from it. -/
theorem provision_result_lacks_lowercase_key :
    (Model.provision_host PyVal.none PyVal.none "demo" [] [] []).toOption.map
      (fun r => Model.provision_result_ok r && (r.lookup "cloudlaunch").isNone)
      = some true := rfl

/-- Claim C1 (amended: the metadata key is `cloudLaunch`, as documented on the
source method, not `cloudlaunch`): every successful `provision_host` result
contains at least the `cloudLaunch` key and a `host` dict carrying at least
`address`, `pk` and `user`. -/
theorem provision_result_contains_contract_keys
    (provider task : PyVal) (name : String)
    (cloud_config app_config user_data : List (String × PyVal)) (r : PyVal)
    (h : Model.provision_host provider task name cloud_config app_config user_data
          = Except.ok r) :
    Model.provision_result_ok r = true := by
  injection h with h2
  subst h2
  rfl

/-- Witness for amended claim C1: a concrete successful provisioning call
returns the model result, and that result satisfies the documented contract. -/
theorem provision_result_contains_contract_keys_witness :
    Model.provision_host PyVal.none PyVal.none "demo" [] [] []
      = Except.ok Model.model_provision_result ∧
    Model.provision_result_ok Model.model_provision_result = true :=
  ⟨rfl,
   provision_result_contains_contract_keys PyVal.none PyVal.none "demo" [] [] []
     Model.model_provision_result rfl⟩

/-- Claim C3: when `app_config` violates the plugin-specific schema,
`process_app_config` makes no provider call and fails with a
`ValidationError` carrying field-level messages, and the launch run driven by
that validation moves to `ERROR`, returns the error to the caller, and makes
zero infrastructure-touching calls. -/
theorem invalid_config_rejected_before_infrastructure
    (provider : PyVal) (name : String)
    (cloud_config app_config : List (String × PyVal))
    (prov : List (String × PyVal) → Except ProvisioningError PyVal)
    (conf : PyVal → Except ConfigurationError PyVal)
    (h : Model.schema_violated app_config = true) :
    (Model.process_app_config provider name cloud_config app_config).2 = [] ∧
    ∃ e : ValidationError,
      (Model.process_app_config provider name cloud_config app_config).1
        = Except.error e ∧
      e.fieldErrors ≠ [] ∧
      (launch (Model.process_app_config provider name cloud_config app_config).1
        prov conf).finalState = LifecycleState.ERROR ∧
      (launch (Model.process_app_config provider name cloud_config app_config).1
        prov conf).infraCalls = 0 ∧
      (launch (Model.process_app_config provider name cloud_config app_config).1
        prov conf).validationError = some e := by
  have hm : (Model.required_fields.filter
      (fun f => (lookupKey f app_config).isNone)).isEmpty = false := by
    simpa [Model.schema_violated] using h
  have hne : Model.required_fields.filter
      (fun f => (lookupKey f app_config).isNone) ≠ [] := by
    simpa [List.isEmpty_iff] using hm
  have hproc : Model.process_app_config provider name cloud_config app_config =
      (Except.error
        { fieldErrors := (Model.required_fields.filter
            (fun f => (lookupKey f app_config).isNone)).map
              (fun f => (f, "missing required field")) }, []) := by
    simp [Model.process_app_config, hm]
  refine ⟨by rw [hproc], ⟨_, by rw [hproc], ?_, by rw [hproc]; rfl,
    by rw [hproc]; rfl, by rw [hproc]; rfl⟩⟩
  simpa using hne

/-- Witness for claim C3: the empty app config violates the schema, and a
concrete launch driven by it errors with field-level messages and zero
infrastructure calls. -/
theorem invalid_config_rejected_before_infrastructure_witness :
    Model.schema_violated [] = true ∧
    ((Model.process_app_config PyVal.none "demo" demo_cloud_config []).2 = [] ∧
     ∃ e : ValidationError,
       (Model.process_app_config PyVal.none "demo" demo_cloud_config []).1
         = Except.error e ∧
       e.fieldErrors ≠ [] ∧
       (launch (Model.process_app_config PyVal.none "demo" demo_cloud_config []).1
         failing_provisioner failing_configurator).finalState = LifecycleState.ERROR ∧
       (launch (Model.process_app_config PyVal.none "demo" demo_cloud_config []).1
         failing_provisioner failing_configurator).infraCalls = 0 ∧
       (launch (Model.process_app_config PyVal.none "demo" demo_cloud_config []).1
         failing_provisioner failing_configurator).validationError = some e) :=
  ⟨rfl,
   invalid_config_rejected_before_infrastructure PyVal.none "demo" demo_cloud_config []
     failing_provisioner failing_configurator rfl⟩

/-- Claim C4: when the provider no longer finds the deployment's underlying
instance, `health_check` returns a report whose `instance_status` is
`"deleted"`; the model's return type has no failure exit, so this is a
positive result, not an error. -/
theorem health_check_reports_deleted_when_gone
    (instanceStatusOf : String → Option String) (deployment : PyVal)
    (h : ∀ iid, Model.deployment_instance_id deployment = some iid →
          instanceStatusOf iid = Option.none) :
    (Model.health_check instanceStatusOf deployment).lookup "instance_status"
      = some (PyVal.str "deleted") := by
  cases hd : Model.deployment_instance_id deployment with
  | none => simp [Model.health_check, hd, PyVal.lookup, lookupKey]
  | some iid => simp [Model.health_check, hd, h iid hd, PyVal.lookup, lookupKey]

/-- Witness for claim C4: a deployment whose record points at instance `i-0`,
queried against a provider that no longer has any instance, reports
`instance_status = "deleted"`. -/
theorem health_check_reports_deleted_when_gone_witness :
    Model.deployment_instance_id demo_deployment = some "i-0" ∧
    (Model.health_check no_instance demo_deployment).lookup "instance_status"
      = some (PyVal.str "deleted") :=
  ⟨rfl,
   health_check_reports_deleted_when_gone no_instance demo_deployment
     (fun iid hx => rfl)⟩

/-- Claim C5: two `process_app_config` calls with identical
`(name, cloud_config, app_config)` inputs accepted by the schema return equal
outputs — even from different provider handles, which the validation never
reads — the accepted input yields an `Except.ok` processed config, and
neither call makes any provider call. -/
theorem process_app_config_deterministic_and_offline
    (provider1 provider2 : PyVal) (name : String)
    (cloud_config1 app_config1 cloud_config2 app_config2 : List (String × PyVal))
    (hcc : cloud_config1 = cloud_config2) (hac : app_config1 = app_config2)
    (hok : Model.schema_violated app_config1 = false) :
    (Model.process_app_config provider1 name cloud_config1 app_config1).1 =
      (Model.process_app_config provider2 name cloud_config2 app_config2).1 ∧
    (∃ pc, (Model.process_app_config provider1 name cloud_config1 app_config1).1
      = Except.ok pc) ∧
    (Model.process_app_config provider1 name cloud_config1 app_config1).2 = [] ∧
    (Model.process_app_config provider2 name cloud_config2 app_config2).2 = [] := by
  subst hcc
  subst hac
  have he : (Model.required_fields.filter
      (fun f => (lookupKey f app_config1).isNone)).isEmpty = true := by
    simpa [Model.schema_violated] using hok
  refine ⟨rfl,
    ⟨("deployment_name", PyVal.str name)
       :: ("cloud", PyVal.dict cloud_config1) :: app_config1, ?_⟩, ?_, ?_⟩ <;>
    simp [Model.process_app_config, he]

/-- Witness for claim C5: a schema-conformant config is accepted
deterministically, offline, from two distinct provider handles. -/
theorem process_app_config_deterministic_and_offline_witness :
    demo_cloud_config = demo_cloud_config ∧
    demo_app_config = demo_app_config ∧
    Model.schema_violated demo_app_config = false ∧
    ((Model.process_app_config PyVal.none "demo" demo_cloud_config demo_app_config).1 =
       (Model.process_app_config (PyVal.str "other-provider") "demo"
          demo_cloud_config demo_app_config).1 ∧
     (∃ pc, (Model.process_app_config PyVal.none "demo" demo_cloud_config
        demo_app_config).1 = Except.ok pc) ∧
     (Model.process_app_config PyVal.none "demo" demo_cloud_config
        demo_app_config).2 = [] ∧
     (Model.process_app_config (PyVal.str "other-provider") "demo" demo_cloud_config
        demo_app_config).2 = []) :=
  ⟨rfl, rfl, rfl,
   process_app_config_deterministic_and_offline PyVal.none (PyVal.str "other-provider")
     "demo" demo_cloud_config demo_app_config demo_cloud_config demo_app_config
     rfl rfl rfl⟩

/-- Claim C8: when validation succeeds with a processed config `pc`, the
Lifecycle Controller hands exactly `pc` to `provision_host` and the
provisioning outcome is `provision` applied to that very value; `launch` is
parametric in the processed-config type, so it cannot inspect or rebuild it. -/
theorem processed_config_passed_unchanged (α : Type) (pc : α)
    (validation : Except ValidationError α)
    (prov : α → Except ProvisioningError PyVal)
    (conf : PyVal → Except ConfigurationError PyVal)
    (h : validation = Except.ok pc) :
    (launch validation prov conf).passedUserData = some pc ∧
    (launch validation prov conf).provisionOutcome = some (prov pc) := by
  subst h
  cases hp : prov pc with
  | error e => simp [launch, hp]
  | ok r =>
      cases hc : conf r with
      | error e2 => simp [launch, hp, hc]
      | ok r2 => simp [launch, hp, hc]

/-- Witness for claim C8: a concrete launch whose validation returns the
processed config `7` hands exactly `7` to the provisioner. -/
theorem processed_config_passed_unchanged_witness :
    (Except.ok 7 : Except ValidationError Nat) = Except.ok 7 ∧
    ((launch (Except.ok 7 : Except ValidationError Nat)
        (fun x => Except.ok PyVal.none)
        (fun x => Except.ok PyVal.none)).passedUserData = some 7 ∧
     (launch (Except.ok 7 : Except ValidationError Nat)
        (fun x => Except.ok PyVal.none)
        (fun x => Except.ok PyVal.none)).provisionOutcome
       = some (Except.ok PyVal.none)) :=
  ⟨rfl,
   processed_config_passed_unchanged Nat 7 (Except.ok 7)
     (fun x => Except.ok PyVal.none) (fun x => Except.ok PyVal.none) rfl⟩

end CloudLaunch
